import Mathlib

/-!
Shallow embedding of the Daily Diet API (`src/dd.js`), a Node.js/Express/Knex
application over SQLite, and verification of its specification.

Modelling conventions:
* The `users` table and the `meals` table are modelled as Lean lists in
  insertion (rowid) order; a `where` clause is a `filter`/`find?` over the
  list, an `insert` appends, an `update` maps over matching rows and a
  `del` removes matching rows.
* Each Express route handler becomes a pure function from the store and the
  request data to the new store and the observable HTTP outcome.
* A knex promise rejection that the handler does not catch (the source has
  no try/catch anywhere) is modelled by the `WriteOutcome.unhandled`
  constructor: no `res.status(...).json({error})` response is produced.
* `jsonwebtoken`'s `sign`/`verify` are modelled by a token record carrying
  the payload id, the expiry instant and the secret it was signed with;
  verification succeeds iff the secrets agree and the current time is
  before the expiry, matching the library's documented semantics for
  `expiresIn: '1d'` (86400 seconds).
* `bcrypt.compare` is an opaque boolean comparison function passed as a
  parameter to the login handler.
-/

/-- A row of the `users` table (dd.js lines 24-29): increments id, name,
unique email, and the bcrypt hash stored in the `password` column. -/
structure User where
  id : Nat
  name : String
  email : String
  password : String
deriving DecidableEq, Repr

/-- A row of the `meals` table (dd.js lines 35-42): increments id, name,
optional description, datetime, on_diet flag and the owning user_id. -/
structure Meal where
  id : Nat
  name : String
  description : Option String
  datetime : String
  on_diet : Bool
  user_id : Nat
deriving DecidableEq, Repr

/-- An error a knex write can reject with: the `unique` constraint on
`users.email` (line 27) or a `notNullable` column constraint
(lines 26, 28, 37, 39, 40). -/
inductive DbError where
  | uniqueViolation
  | notNullViolation
deriving DecidableEq, Repr

/-- Observable outcome of a write-route handler: an explicit success
response `res.status(s).json({message})`, an explicit error response
`res.status(s).json({error})`, or a knex rejection that escaped the
handler because nothing catches it. -/
inductive WriteOutcome where
  | success (status : Nat) (message : String)
  | apiError (status : Nat) (error : String)
  | unhandled (e : DbError)
deriving DecidableEq, Repr

/-- Whether the outcome is an explicit `res.status(s).json({error})`
response (the only way the app surfaces a classified error kind). -/
def WriteOutcome.isApiError : WriteOutcome → Bool
  | .apiError _ _ => true
  | _ => false

/-- An explicit error response `res.status(status).json({error})`. -/
structure ApiError where
  status : Nat
  error : String
deriving DecidableEq, Repr

/-- A signed JWT as produced by `jwt.sign({id}, secret, {expiresIn:'1d'})`:
the payload id, the expiry instant (issue time + 86400 s) and the secret
the signature binds it to. -/
structure Token where
  id : Nat
  exp : Nat
  secret : String
deriving DecidableEq, Repr

/-- `jwt.sign({ id }, secret, { expiresIn: '1d' })` (dd.js line 75) at
instant `now` (seconds since epoch). -/
def jwtSign (id : Nat) (secret : String) (now : Nat) : Token :=
  { id := id, exp := now + 86400, secret := secret }

/-- `jwt.verify(token, secret, ...)` as used by `authenticate`
(dd.js lines 51-55): succeeds with the embedded id iff the signature
checks out (same secret) and the token is not expired (`now < exp`);
otherwise the middleware answers 401 `Invalid token`. -/
def jwtVerify (t : Token) (secret : String) (now : Nat) : Except ApiError Nat :=
  if t.secret = secret ∧ now < t.exp then Except.ok t.id
  else Except.error ⟨401, "Invalid token"⟩

/-- The knex insert issued by POST /users (dd.js line 64): the `unique`
constraint on `email` rejects a duplicate, otherwise the row is appended. -/
def insertUser (users : List User) (u : User) : Except DbError (List User) :=
  if users.any (fun x => x.email == u.email) then Except.error DbError.uniqueViolation
  else Except.ok (users ++ [u])

/-- POST /users handler (dd.js lines 61-66): hashes the password (the
bcrypt hash is the `hash` argument), inserts and answers 201
`User created`; a constraint rejection is not caught. -/
def registerHandler (users : List User) (nextId : Nat)
    (name email hash : String) : List User × WriteOutcome :=
  match insertUser users ⟨nextId, name, email, hash⟩ with
  | Except.ok users2 => (users2, WriteOutcome.success 201 "User created")
  | Except.error e => (users, WriteOutcome.unhandled e)

/-- POST /login handler (dd.js lines 69-77): looks the user up by email,
compares the password with `bcrypt.compare` and answers 401
`Invalid credentials` when either step fails, with no distinction between
the two failure cases; on success it signs a 1-day token for the user id. -/
def loginHandler (compare : String → String → Bool) (users : List User)
    (email password secret : String) (now : Nat) : Except ApiError Token :=
  match users.find? (fun u => u.email == email) with
  | none => Except.error ⟨401, "Invalid credentials"⟩
  | some u =>
      if compare password u.password then Except.ok (jwtSign u.id secret now)
      else Except.error ⟨401, "Invalid credentials"⟩

/-- The JSON body of POST /meals: any of the fields may be absent from the
request (`none`), in which case knex binds NULL (`useNullAsDefault`). -/
structure MealBody where
  name : Option String
  description : Option String
  datetime : Option String
  on_diet : Option Bool
deriving DecidableEq, Repr

/-- The knex insert issued by POST /meals (dd.js line 82): the
`notNullable` constraints on `name`, `datetime` and `on_diet` reject a row
missing any of them; otherwise the row is appended with
`user_id = req.userId`. -/
def insertMeal (store : List Meal) (nextId : Nat) (b : MealBody)
    (userId : Nat) : Except DbError (List Meal) :=
  match b.name, b.datetime, b.on_diet with
  | some n, some d, some od =>
      Except.ok (store ++ [⟨nextId, n, b.description, d, od, userId⟩])
  | _, _, _ => Except.error DbError.notNullViolation

/-- POST /meals handler (dd.js lines 80-84): inserts the body with the
authenticated user id and answers 201 `Meal added`; a constraint rejection
is not caught. -/
def createMealHandler (store : List Meal) (nextId : Nat) (userId : Nat)
    (b : MealBody) : List Meal × WriteOutcome :=
  match insertMeal store nextId b userId with
  | Except.ok store2 => (store2, WriteOutcome.success 201 "Meal added")
  | Except.error e => (store, WriteOutcome.unhandled e)

/-- GET /meals handler (dd.js lines 87-90): `where({user_id})`, i.e. the
owner's rows in table (insertion) order. -/
def listMealsHandler (store : List Meal) (userId : Nat) : List Meal :=
  store.filter (fun m => m.user_id == userId)

/-- GET /meals/:id handler (dd.js lines 93-97):
`where({id, user_id}).first()`; answers 404 `Meal not found` when no row
matches, whether the id is absent altogether or belongs to another user. -/
def getMealHandler (store : List Meal) (userId mealId : Nat) :
    Except ApiError Meal :=
  match store.find? (fun m => m.id == mealId && m.user_id == userId) with
  | some m => Except.ok m
  | none => Except.error ⟨404, "Meal not found"⟩

/-- The JSON body of PUT /meals/:id (dd.js line 101), the four mutable
fields. -/
structure UpdateBody where
  name : String
  description : Option String
  datetime : String
  on_diet : Bool
deriving DecidableEq, Repr

/-- The field replacement performed by `.update({name, description,
datetime, on_diet})` on a matching row. -/
def applyUpdate (b : UpdateBody) (m : Meal) : Meal :=
  { m with name := b.name, description := b.description,
           datetime := b.datetime, on_diet := b.on_diet }

/-- PUT /meals/:id handler (dd.js lines 100-106):
`where({id, user_id}).update(...)` replaces the four fields on every
matching row, and the handler then answers `Meal updated` (status 200)
unconditionally — it never inspects how many rows matched. -/
def updateMealHandler (store : List Meal) (userId mealId : Nat)
    (b : UpdateBody) : List Meal × WriteOutcome :=
  (store.map (fun m =>
      if m.id == mealId && m.user_id == userId then applyUpdate b m else m),
   WriteOutcome.success 200 "Meal updated")

/-- DELETE /meals/:id handler (dd.js lines 109-112):
`where({id, user_id}).del()` removes every matching row, and the handler
then answers `Meal deleted` (status 200) unconditionally — it never
inspects how many rows were removed. -/
def deleteMealHandler (store : List Meal) (userId mealId : Nat) :
    List Meal × WriteOutcome :=
  (store.filter (fun m => !(m.id == mealId && m.user_id == userId)),
   WriteOutcome.success 200 "Meal deleted")

/-- The response of GET /metrics (dd.js line 128). -/
structure Metrics where
  total : Nat
  inside : Nat
  outside : Nat
  bestSequence : Nat
deriving DecidableEq, Repr

/-- The streak loop of GET /metrics (dd.js lines 121-126): `current` is
incremented on an on-diet meal and reset to 0 otherwise, and `bestSeq` is
raised to `current` whenever `current > bestSeq`. -/
def bestSeqLoop : List Meal → Nat → Nat → Nat
  | [], bestSeq, _ => bestSeq
  | m :: rest, bestSeq, current =>
      let current2 := if m.on_diet then current + 1 else 0
      let bestSeq2 := if current2 > bestSeq then current2 else bestSeq
      bestSeqLoop rest bestSeq2 current2

/-- GET /metrics handler (dd.js lines 115-129) applied to the owner's meal
sequence: total count, on-diet count, the difference, and the best streak. -/
def metrics (meals : List Meal) : Metrics :=
  let total := meals.length
  let inside := (meals.filter (fun m => m.on_diet)).length
  let outside := total - inside
  { total := total, inside := inside, outside := outside,
    bestSequence := bestSeqLoop meals 0 0 }

/-- GET /metrics as routed: the authenticated user's rows are fetched with
`where({user_id})` and the metrics are computed over them. -/
def metricsHandler (store : List Meal) (userId : Nat) : Metrics :=
  metrics (listMealsHandler store userId)

/-- One step of the streak scan as the specification words it: `current`
becomes `current + 1` on an on-diet meal and 0 otherwise, and the best
value is `max best current` at every step. Stated over the sequence of
`onDiet` flags; used to compare the code's loop against the spec. -/
def specStreakStep : Nat × Nat → Bool → Nat × Nat
  | (best, current), onDiet =>
      let current2 := if onDiet then current + 1 else 0
      (max best current2, current2)

/-- The specification's streak of a flag sequence: left fold of
`specStreakStep` from `(0, 0)`, returning the best value. -/
def specBestStreak (flags : List Bool) : Nat :=
  (flags.foldl specStreakStep (0, 0)).1

/-! ## Theorems -/

theorem ite_gt_eq_max (best c : Nat) :
    (if c > best then c else best) = max best c := by
  split <;> omega

theorem bestSeqLoop_eq_scan (meals : List Meal) (best current : Nat) :
    bestSeqLoop meals best current =
      ((meals.map Meal.on_diet).foldl specStreakStep (best, current)).1 := by
  induction meals generalizing best current with
  | nil => rfl
  | cons m rest ih =>
      simp only [bestSeqLoop, List.map_cons, List.foldl_cons, specStreakStep]
      rw [ih, ite_gt_eq_max]

/-- C3: for every ordered meal sequence, `metrics` returns the length as
`total`, the on-diet count as `inside`, `total - inside` as `outside`, and
as best streak exactly the spec's left-to-right scan (counter incremented
on on-diet, reset to 0 otherwise, maximum kept; 0 on the empty sequence);
on the flag sequence `[true, true, false, true, true, true, false]` it
yields total 7, inside 5, outside 2, best streak 3. -/
theorem metrics_spec (meals : List Meal) :
    (metrics meals).total = meals.length ∧
    (metrics meals).inside = (meals.filter (fun m => m.on_diet)).length ∧
    (metrics meals).outside = (metrics meals).total - (metrics meals).inside ∧
    (metrics meals).bestSequence = specBestStreak (meals.map Meal.on_diet) ∧
    metrics [] = ⟨0, 0, 0, 0⟩ ∧
    metrics [⟨1, "a", none, "t", true, 9⟩, ⟨2, "b", none, "t", true, 9⟩,
             ⟨3, "c", none, "t", false, 9⟩, ⟨4, "d", none, "t", true, 9⟩,
             ⟨5, "e", none, "t", true, 9⟩, ⟨6, "f", none, "t", true, 9⟩,
             ⟨7, "g", none, "t", false, 9⟩] = ⟨7, 5, 2, 3⟩ := by
  refine ⟨rfl, rfl, rfl, ?_, rfl, by decide⟩
  simpa [metrics, specBestStreak] using bestSeqLoop_eq_scan meals 0 0

/-- C2: `list` returns exactly the requester's meals — membership is
ownership — as a sublist of the store, i.e. in unchanged (insertion)
order, and the metrics route consumes exactly this sequence. -/
theorem listMeals_spec (store : List Meal) (a : Nat) :
    (∀ m : Meal, m ∈ listMealsHandler store a ↔ m ∈ store ∧ m.user_id = a) ∧
    (listMealsHandler store a).Sublist store ∧
    metricsHandler store a = metrics (listMealsHandler store a) := by
  refine ⟨fun m => ?_, List.filter_sublist store, rfl⟩
  simp [listMealsHandler, List.mem_filter]

/-- C6: a token signed for `id` with a 24-hour (86400 s) expiry verifies
to `id` at the instant of issuance, and at any instant `t` it verifies
exactly while `t` is before `now + 86400` — in particular verification
fails once the expiry instant has passed. -/
theorem token_roundtrip_expiry (id : Nat) (secret : String) (now t : Nat) :
    jwtVerify (jwtSign id secret now) secret now = Except.ok id ∧
    (jwtVerify (jwtSign id secret now) secret t = Except.ok id ↔
      t < now + 86400) := by
  constructor
  · simp [jwtVerify, jwtSign]
  · by_cases h : t < now + 86400 <;> simp [jwtVerify, jwtSign, h]

/-- C1: assuming unique meal ids (the primary key), get succeeds with `m`
exactly when `m` is a stored meal with the requested id owned by the
requester, and otherwise — whether no meal has that id or the meal belongs
to another user — it fails with the one and only error value
404 `Meal not found`, so the two failure cases are indistinguishable. -/
theorem getMeal_spec (store : List Meal) (a mid : Nat)
    (hids : (store.map Meal.id).Nodup) :
    ((¬ ∃ m ∈ store, m.id = mid ∧ m.user_id = a) ↔
      getMealHandler store a mid = Except.error ⟨404, "Meal not found"⟩) ∧
    (∀ m : Meal, getMealHandler store a mid = Except.ok m ↔
      m ∈ store ∧ m.id = mid ∧ m.user_id = a) := by
  cases hf : store.find? (fun m => m.id == mid && m.user_id == a) with
  | none =>
      have hnone := List.find?_eq_none.mp hf
      constructor
      · simp only [getMealHandler, hf]
        constructor
        · intro _; trivial
        · intro _ ⟨m, hm, h1, h2⟩
          exact absurd (by simp [h1, h2]) (hnone m hm)
      · intro m
        simp only [getMealHandler, hf]
        constructor
        · intro h; exact absurd h (by simp)
        · rintro ⟨hm, h1, h2⟩
          exact absurd (by simp [h1, h2]) (hnone m hm)
  | some m0 =>
      have hmem := List.mem_of_find?_eq_some hf
      have hprop : m0.id = mid ∧ m0.user_id = a := by
        have := List.find?_some hf
        simpa using this
      constructor
      · simp only [getMealHandler, hf]
        constructor
        · intro h; exact absurd ⟨m0, hmem, hprop⟩ h
        · intro h; exact absurd h (by simp)
      · intro m
        simp only [getMealHandler, hf, Except.ok.injEq]
        constructor
        · rintro rfl; exact ⟨hmem, hprop⟩
        · rintro ⟨hm, h1, h2⟩
          exact (List.inj_on_of_nodup_map hids hm hmem
            (by rw [h1, hprop.1])).symm ▸ rfl
  
/-- C1 witness: the isolation characterization of get at a concrete
one-meal store queried by a foreign identity. -/
theorem getMeal_spec_witness :
    (([⟨1, "m", none, "t", true, 1⟩] : List Meal).map Meal.id).Nodup ∧
    (((¬ ∃ m ∈ ([⟨1, "m", none, "t", true, 1⟩] : List Meal),
        m.id = 1 ∧ m.user_id = 2) ↔
      getMealHandler [⟨1, "m", none, "t", true, 1⟩] 2 1 =
        Except.error ⟨404, "Meal not found"⟩) ∧
    (∀ m : Meal, getMealHandler [⟨1, "m", none, "t", true, 1⟩] 2 1 =
        Except.ok m ↔
      m ∈ ([⟨1, "m", none, "t", true, 1⟩] : List Meal) ∧
        m.id = 1 ∧ m.user_id = 2)) :=
  ⟨by decide, getMeal_spec [⟨1, "m", none, "t", true, 1⟩] 2 1 (by decide)⟩

/-- C9: login fails with the single error value 401 `Invalid credentials`
exactly when there is no stored user whose email matches and whose
password hash passes the bcrypt comparison — so an unknown email and a
wrong secret produce the same observable error — and it succeeds with a
token exactly when the comparison against the stored hash succeeds,
the token being the 1-day JWT for that user's id. -/
theorem login_spec (compare : String → String → Bool) (users : List User)
    (email password secret : String) (now : Nat) :
    (loginHandler compare users email password secret now =
        Except.error ⟨401, "Invalid credentials"⟩ ↔
      ¬ ∃ u : User, users.find? (fun x => x.email == email) = some u ∧
        compare password u.password = true) ∧
    (∀ t : Token,
      loginHandler compare users email password secret now = Except.ok t ↔
      ∃ u : User, users.find? (fun x => x.email == email) = some u ∧
        compare password u.password = true ∧ t = jwtSign u.id secret now) := by
  cases hf : users.find? (fun x => x.email == email) with
  | none => simp [loginHandler, hf]
  | some u =>
      by_cases hc : compare password u.password
      · constructor
        · simp only [loginHandler, hf, if_pos hc]
          constructor
          · intro hcontra; exact absurd hcontra (by simp)
          · intro hno; exact absurd ⟨u, rfl, hc⟩ hno
        · intro t
          simp only [loginHandler, hf, if_pos hc, Except.ok.injEq]
          constructor
          · intro ht; exact ⟨u, rfl, hc, ht.symm⟩
          · rintro ⟨u', hu', hc', rfl⟩
            rw [(Option.some_inj.mp hu').symm]
      · constructor
        · simp only [loginHandler, hf, if_neg hc]
          constructor
          · intro _
            rintro ⟨u', hu', hc'⟩
            rw [(Option.some_inj.mp hu').symm] at hc'
            exact hc hc'
          · intro _; trivial
        · intro t
          simp only [loginHandler, hf, if_neg hc]
          constructor
          · intro hcontra; exact absurd hcontra (by simp)
          · rintro ⟨u', hu', hc', rfl⟩
            rw [(Option.some_inj.mp hu').symm] at hc'
            exact absurd hc' hc

/-- C10: an update or a delete whose meal id is absent from the store or
names a meal owned by a different identity leaves the meal store exactly
as it was: no row is modified and no row is removed. -/
theorem write_isolation_frame (store : List Meal) (userId mealId : Nat)
    (b : UpdateBody)
    (h : ¬ ∃ m ∈ store, m.id = mealId ∧ m.user_id = userId) :
    (updateMealHandler store userId mealId b).1 = store ∧
    (deleteMealHandler store userId mealId).1 = store := by
  have hc : ∀ m ∈ store, (m.id == mealId && m.user_id == userId) = false := by
    intro m hm
    cases hb : (m.id == mealId && m.user_id == userId) with
    | false => rfl
    | true => exact absurd ⟨m, hm, by simpa using hb⟩ h
  constructor
  · show store.map _ = store
    calc store.map (fun m =>
          if m.id == mealId && m.user_id == userId then applyUpdate b m else m)
        = store.map id := List.map_congr_left (fun m hm => by simp [hc m hm])
      _ = store := store.map_id
  · show store.filter _ = store
    exact List.filter_eq_self.mpr (fun m hm => by simp [hc m hm])

/-- C10 witness: a foreign update and a foreign delete against a concrete
one-meal store leave it unchanged. -/
theorem write_isolation_frame_witness :
    (¬ ∃ m ∈ ([⟨1, "m", none, "t", true, 1⟩] : List Meal),
        m.id = 1 ∧ m.user_id = 2) ∧
    ((updateMealHandler [⟨1, "m", none, "t", true, 1⟩] 2 1
        ⟨"x", none, "u", false⟩).1 = [⟨1, "m", none, "t", true, 1⟩] ∧
     (deleteMealHandler [⟨1, "m", none, "t", true, 1⟩] 2 1).1 =
        [⟨1, "m", none, "t", true, 1⟩]) :=
  ⟨by decide, write_isolation_frame [⟨1, "m", none, "t", true, 1⟩] 2 1
      ⟨"x", none, "u", false⟩ (by decide)⟩

/-- C4: the PUT /meals/:id handler never answers 404. Evaluated at a
store holding only meal 1 owned by user 1: user 2's update of meal 1
leaves the row untouched yet the handler answers success 200
`Meal updated` — no API error, and in particular no NotFound — and the
same success response is produced when the id does not exist at all. -/
theorem updateMeal_foreign_reports_success :
    updateMealHandler [⟨1, "m", none, "t", true, 1⟩] 2 1
        ⟨"x", none, "u", false⟩ =
      ([⟨1, "m", none, "t", true, 1⟩], WriteOutcome.success 200 "Meal updated") ∧
    (updateMealHandler [] 1 1 ⟨"x", none, "u", false⟩).2 =
      WriteOutcome.success 200 "Meal updated" ∧
    WriteOutcome.isApiError
      (updateMealHandler [⟨1, "m", none, "t", true, 1⟩] 2 1
        ⟨"x", none, "u", false⟩).2 = false := by
  decide

/-- C5: the DELETE /meals/:id handler never answers 404. The owner's
first delete of meal 1 empties the store and answers success, but the
second delete of the same id — and likewise a foreign identity's delete —
also answers success 200 `Meal deleted` instead of the claimed NotFound. -/
theorem deleteMeal_always_reports_success :
    deleteMealHandler [⟨1, "m", none, "t", true, 1⟩] 1 1 =
      ([], WriteOutcome.success 200 "Meal deleted") ∧
    deleteMealHandler [] 1 1 =
      ([], WriteOutcome.success 200 "Meal deleted") ∧
    deleteMealHandler [⟨1, "m", none, "t", true, 1⟩] 2 1 =
      ([⟨1, "m", none, "t", true, 1⟩], WriteOutcome.success 200 "Meal deleted") ∧
    WriteOutcome.isApiError (deleteMealHandler [] 1 1).2 = false := by
  decide

/-- C7 counterexample: registering a second account with an email already
stored makes the unique-constraint rejection escape the handler — the
observable outcome is an unhandled error, not any
`res.status(...).json({error})` response, so in particular not a Conflict
response; the row is nevertheless not created. -/
theorem register_duplicate_no_conflict_response :
    registerHandler [⟨1, "alice", "a@b.c", "h1"⟩] 2 "bob" "a@b.c" "h2" =
      ([⟨1, "alice", "a@b.c", "h1"⟩],
        WriteOutcome.unhandled DbError.uniqueViolation) ∧
    WriteOutcome.isApiError
      (registerHandler [⟨1, "alice", "a@b.c", "h1"⟩] 2 "bob" "a@b.c" "h2").2 =
      false := by
  decide

/-- C7 (amended): registration with an email that already exists rejects
on the unique constraint — surfaced as an unhandled failure, never a
Conflict response — and creates no row, while registration with a fresh
email appends exactly the new row and answers 201 `User created`. -/
theorem registerHandler_spec (users : List User) (nextId : Nat)
    (name email hash : String) :
    ((∃ u ∈ users, u.email = email) ↔
      registerHandler users nextId name email hash =
        (users, WriteOutcome.unhandled DbError.uniqueViolation)) ∧
    ((¬ ∃ u ∈ users, u.email = email) ↔
      registerHandler users nextId name email hash =
        (users ++ [⟨nextId, name, email, hash⟩],
          WriteOutcome.success 201 "User created")) := by
  by_cases hd : ∃ u ∈ users, u.email = email
  · have hany : users.any (fun x => x.email == email) = true := by
      simpa [List.any_eq_true] using hd
    constructor
    · simp [registerHandler, insertUser, hany, hd]
    · simp [registerHandler, insertUser, hany, hd]
  · have hany : users.any (fun x => x.email == email) = false := by
      simpa [List.any_eq_true] using hd
    constructor
    · simp [registerHandler, insertUser, hany, hd]
    · simp [registerHandler, insertUser, hany, hd]

/-- C8 counterexample: creating a meal whose body lacks the required
`name` makes the not-null rejection escape the handler — no
`res.status(...).json({error})` response, so in particular no
ValidationError response — and no meal is inserted. -/
theorem createMeal_missing_no_validation_response :
    createMealHandler [] 1 1 ⟨none, none, some "t", some true⟩ =
      ([], WriteOutcome.unhandled DbError.notNullViolation) ∧
    WriteOutcome.isApiError
      (createMealHandler [] 1 1 ⟨none, none, some "t", some true⟩).2 =
      false := by
  decide

/-- C8 (amended): a create whose body is missing `name`, `datetime` or
`on_diet` is rejected by the not-null constraints — surfaced as an
unhandled failure, never a ValidationError response — and inserts
nothing; a create with all required fields present appends exactly one
meal whose owner is the requester and answers 201 `Meal added`. -/
theorem createMealHandler_spec (store : List Meal) (nextId userId : Nat) :
    (∀ b : MealBody,
      (b.name = none ∨ b.datetime = none ∨ b.on_diet = none) ↔
      createMealHandler store nextId userId b =
        (store, WriteOutcome.unhandled DbError.notNullViolation)) ∧
    (∀ (n d : String) (desc : Option String) (od : Bool),
      createMealHandler store nextId userId ⟨some n, desc, some d, some od⟩ =
        (store ++ [⟨nextId, n, desc, d, od, userId⟩],
          WriteOutcome.success 201 "Meal added")) := by
  refine ⟨fun b => ?_, fun n d desc od => rfl⟩
  obtain ⟨bn, bdesc, bd, bod⟩ := b
  cases bn <;> cases bd <;> cases bod <;>
    simp [createMealHandler, insertMeal]
